import Mathlib

/-!
Verification of the OpenAITutorial repository (a thin wrapper around the
OpenAI SDK) against its natural-language specification.

The source is Python (`main.py`, `example1.py`, `example3.py`,
`example4_reusable_prompt.py`).  We embed it shallowly:

* the remote network boundary is an explicit `transport` argument of type
  `Request → Except String Response`; `Except.error e` models a Python
  exception whose `str(e)` is `e`, raised by the SDK call;
* Python `x or y` truthiness resolution is embedded by the `pyOr*`
  functions below (`None`, `0`, `0.0` and `""` are falsy);
* Python `float` values only ever flow through truthiness checks and are
  carried verbatim, so they are embedded as `Rat`;
* each method of the wrapper class is embedded in state-passing style
  (`… → Result × OpenAIClient`): the Python method body contains no
  assignment to `self`, so every branch returns the incoming handle.
-/

/-- A conversation turn: one `{"role": …, "content": …}` dictionary of the
Python source. -/
structure Turn where
  role : String
  content : String
deriving DecidableEq, Repr

/-- The SDK client object constructed by `OpenAI(api_key=self.api_key)` in
`OpenAIClient.__init__`.  The SDK constructor only stores the key; it issues
no network request. -/
structure SDKClient where
  api_key : String
deriving DecidableEq, Repr

/-- The wrapper class `OpenAIClient` of `main.py`: the fields assigned in
`__init__` and never reassigned afterwards. -/
structure OpenAIClient where
  api_key : String
  client : SDKClient
  default_model : String
  default_max_tokens : Int
  default_temperature : Rat
deriving DecidableEq, Repr

/-- Python `a or b` for `a : Optional[str]`, `b : str` (the resolution
`model or self.default_model` in `chat_completion`): `None` and `""` are
falsy. -/
def pyOrStr : Option String → String → String
  | none, d => d
  | some s, d => if s = "" then d else s

/-- Python `a or b` for `a : Optional[int]`, `b : int`
(`max_tokens or self.default_max_tokens`): `None` and `0` are falsy. -/
def pyOrInt : Option Int → Int → Int
  | none, d => d
  | some n, d => if n = 0 then d else n

/-- Python `a or b` for `a : Optional[float]`, `b : float`
(`temperature or self.default_temperature`): `None` and `0.0` are falsy. -/
def pyOrRat : Option Rat → Rat → Rat
  | none, d => d
  | some x, d => if x = 0 then d else x

/-- Python `a or b` for two `Optional[str]` values
(`api_key or os.getenv('OPENAI_API_KEY')` in `__init__`). -/
def pyOrOptStr : Option String → Option String → Option String
  | none, b => b
  | some s, b => if s = "" then b else some s

/-- Result of running `OpenAIClient.__init__`.  `result` is `Except.error m`
when the constructor raises `ValueError(m)` (the specification's
`ConfigurationError`).  `networkCalls` counts network requests issued during
construction: the body runs `load_dotenv()` (a local file read),
`os.getenv`, the key check, and — on the success path only — the `OpenAI(…)`
constructor, none of which issues a network request, so the count is `0` on
every path. -/
structure InitResult where
  result : Except String OpenAIClient
  networkCalls : Nat
deriving Repr

/-- `OpenAIClient.__init__(api_key)`.  `env` is the value of
`os.getenv('OPENAI_API_KEY')` after `load_dotenv()` has run (`none` when the
variable is unset, `some ""` when it is set but empty). -/
def OpenAIClient.init (api_key : Option String) (env : Option String) : InitResult :=
  let key := pyOrOptStr api_key env
  match key with
  | none =>
      { result := Except.error "OpenAI API key not found. Please set OPENAI_API_KEY in .env file"
        networkCalls := 0 }
  | some k =>
      if k = "" then
        { result := Except.error "OpenAI API key not found. Please set OPENAI_API_KEY in .env file"
          networkCalls := 0 }
      else
        { result := Except.ok
            { api_key := k
              client := { api_key := k }
              default_model := "gpt-4o-mini"
              default_max_tokens := 150
              default_temperature := 7/10 }
          networkCalls := 0 }

/-- The `messages` list assembled by `chat_completion`: a system turn is
appended first when `if system_prompt:` is truthy (non-`None` and
non-empty), then the single user turn. -/
def chatMessages : Option String → String → List Turn
  | some sp, message =>
      if sp = "" then [{ role := "user", content := message }]
      else [{ role := "system", content := sp }, { role := "user", content := message }]
  | none, message => [{ role := "user", content := message }]

/-- The payload of `self.client.chat.completions.create(…)`. -/
structure ChatRequest where
  model : String
  messages : List Turn
  max_tokens : Int
  temperature : Rat
deriving DecidableEq, Repr

/-- The `choice.message` object of a chat-completion response. -/
structure ChatMessage where
  content : String
deriving DecidableEq, Repr

/-- One element of `response.choices`. -/
structure ChatChoice where
  message : ChatMessage
deriving DecidableEq, Repr

/-- The response object of the chat-completion endpoint. -/
structure ChatResponse where
  choices : List ChatChoice
deriving DecidableEq, Repr

/-- The request `chat_completion` sends to the boundary: each keyword of the
`create` call resolved by Python `or` against the handle's defaults, and the
assembled `messages` list. -/
def chatRequestOf (c : OpenAIClient) (model : Option String) (max_tokens : Option Int)
    (temperature : Option Rat) (system_prompt : Option String) (message : String) :
    ChatRequest :=
  { model := pyOrStr model c.default_model
    messages := chatMessages system_prompt message
    max_tokens := pyOrInt max_tokens c.default_max_tokens
    temperature := pyOrRat temperature c.default_temperature }

/-- `OpenAIClient.chat_completion`, state-passing.  The whole body sits in a
`try`, so a transport exception — and also the `IndexError` that
`response.choices[0]` raises on an empty `choices` list — becomes the string
`"Error generating response: " ++ str(e)`.  No branch assigns to `self`. -/
def chat_completionM (c : OpenAIClient) (message : String) (model : Option String)
    (max_tokens : Option Int) (temperature : Option Rat) (system_prompt : Option String)
    (transport : ChatRequest → Except String ChatResponse) : String × OpenAIClient :=
  match transport (chatRequestOf c model max_tokens temperature system_prompt message) with
  | Except.ok response =>
      match response.choices with
      | [] => ("Error generating response: list index out of range", c)
      | choice :: _ => (choice.message.content, c)
  | Except.error e => ("Error generating response: " ++ e, c)

/-- The return value of `OpenAIClient.chat_completion`. -/
def chat_completion (c : OpenAIClient) (message : String) (model : Option String)
    (max_tokens : Option Int) (temperature : Option Rat) (system_prompt : Option String)
    (transport : ChatRequest → Except String ChatResponse) : String :=
  (chat_completionM c message model max_tokens temperature system_prompt transport).1

/-- The payload of `self.client.embeddings.create(model=model, input=text)`. -/
structure EmbRequest where
  model : String
  input : String
deriving DecidableEq, Repr

/-- One element of `response.data` of the embeddings endpoint; embedding
values are Python floats, carried verbatim, embedded as `Rat`. -/
structure EmbDatum where
  embedding : List Rat
deriving DecidableEq, Repr

/-- The response object of the embeddings endpoint. -/
structure EmbResponse where
  data : List EmbDatum
deriving DecidableEq, Repr

/-- `OpenAIClient.generate_embeddings`, state-passing.  The first component
of the result is the returned list; the second is the line printed to the
console on the error path (`none` when nothing is printed).  The `except`
block also catches the `IndexError` of `response.data[0]` on an empty `data`
list.  No branch assigns to `self`. -/
def generate_embeddingsM (c : OpenAIClient) (text : String) (model : String)
    (transport : EmbRequest → Except String EmbResponse) :
    (List Rat × Option String) × OpenAIClient :=
  match transport { model := model, input := text } with
  | Except.ok response =>
      match response.data with
      | [] => (([], some "Error generating embeddings: list index out of range"), c)
      | d :: _ => ((d.embedding, none), c)
  | Except.error e => (([], some ("Error generating embeddings: " ++ e)), c)

/-- The returned list and printed error of `generate_embeddings`. -/
def generate_embeddings (c : OpenAIClient) (text : String) (model : String)
    (transport : EmbRequest → Except String EmbResponse) : List Rat × Option String :=
  (generate_embeddingsM c text model transport).1

/-- The payload of `self.client.images.generate(…)`; the `model` keyword is
the literal `"dall-e-3"` in the source. -/
structure ImgRequest where
  model : String
  prompt : String
  size : String
  quality : String
  n : Int
deriving DecidableEq, Repr

/-- One element of `response.data` of the image endpoint. -/
structure ImgDatum where
  url : String
deriving DecidableEq, Repr

/-- The response object of the image endpoint. -/
structure ImgResponse where
  data : List ImgDatum
deriving DecidableEq, Repr

/-- `OpenAIClient.generate_image`, state-passing.  On success it returns the
list comprehension `[image.url for image in response.data]`; on a transport
exception it prints and returns `[]`.  No branch assigns to `self`. -/
def generate_imageM (c : OpenAIClient) (prompt : String) (size : String)
    (quality : String) (n : Int)
    (transport : ImgRequest → Except String ImgResponse) :
    (List String × Option String) × OpenAIClient :=
  match transport { model := "dall-e-3", prompt := prompt, size := size,
                    quality := quality, n := n } with
  | Except.ok response => ((response.data.map (fun image => image.url), none), c)
  | Except.error e => (([], some ("Error generating image: " ++ e)), c)

/-- The returned list and printed error of `generate_image`. -/
def generate_image (c : OpenAIClient) (prompt : String) (size : String)
    (quality : String) (n : Int)
    (transport : ImgRequest → Except String ImgResponse) : List String × Option String :=
  (generate_imageM c prompt size quality n transport).1

/-- The `input` argument of `client.responses.create` in `example3.py`:
either a bare string or a list of role-tagged turns. -/
inductive ResponsesInput where
  | text (s : String)
  | turns (ts : List Turn)
deriving DecidableEq, Repr

/-- The payload of `client.responses.create` as issued by `example3.py`. -/
structure ResponsesRequest where
  model : String
  reasoning_effort : String
  instructions : Option String
  input : ResponsesInput
deriving DecidableEq, Repr

/-- The response object of the responses endpoint. -/
structure ResponsesResponse where
  output_text : String
deriving DecidableEq, Repr

/-- The request built by the first `responses.create` call of `example3.py`:
instructions passed as the separate flat field, input as a bare string.  The
literals `"gpt-5-nano"` and `"low"` are from the source; `instructions` and
`input` are generalised over the source's string literals. -/
def flatRequest (instructions : String) (input : String) : ResponsesRequest :=
  { model := "gpt-5-nano", reasoning_effort := "low",
    instructions := some instructions, input := ResponsesInput.text input }

/-- The request built by the second `responses.create` call of `example3.py`:
no flat instructions, input as a developer-role turn followed by a user-role
turn. -/
def turnsRequest (instructions : String) (input : String) : ResponsesRequest :=
  { model := "gpt-5-nano", reasoning_effort := "low",
    instructions := none,
    input := ResponsesInput.turns
      [ { role := "developer", content := instructions },
        { role := "user", content := input } ] }

/-- The first `responses.create` call form of `example3.py`, state-passing
over the module-level client.  `example3.py` wraps the call in no
`try`/`except`: a transport exception propagates, which the `Except.error`
result of this definition records as an uncaught fault. -/
def structuredResponse_flatM (c : OpenAIClient) (instructions : String) (input : String)
    (transport : ResponsesRequest → Except String ResponsesResponse) :
    Except String ResponsesResponse × OpenAIClient :=
  (transport (flatRequest instructions input), c)

/-- The result of the flat-instructions call form. -/
def structuredResponse_flat (c : OpenAIClient) (instructions : String) (input : String)
    (transport : ResponsesRequest → Except String ResponsesResponse) :
    Except String ResponsesResponse :=
  (structuredResponse_flatM c instructions input transport).1

/-- The second `responses.create` call form of `example3.py`, state-passing.
Again no `try`/`except` surrounds the call. -/
def structuredResponse_turnsM (c : OpenAIClient) (instructions : String) (input : String)
    (transport : ResponsesRequest → Except String ResponsesResponse) :
    Except String ResponsesResponse × OpenAIClient :=
  (transport (turnsRequest instructions input), c)

/-- The result of the role-tagged-turn-sequence call form. -/
def structuredResponse_turns (c : OpenAIClient) (instructions : String) (input : String)
    (transport : ResponsesRequest → Except String ResponsesResponse) :
    Except String ResponsesResponse :=
  (structuredResponse_turnsM c instructions input transport).1

/-- Modelled from the spec: the effective turn content a `ResponsesRequest`
presents to the provider boundary.  The provider's interpretation of the
responses endpoint is not part of this repository; the specification states
that a flat `instructions` field is equivalent to folding the instructions
into the turn sequence as a developer-role turn placed before the input
(§4.3, §6), and that a bare-string input stands for a single user turn. -/
def effectiveTurns (r : ResponsesRequest) : List Turn :=
  let base : List Turn :=
    match r.input with
    | ResponsesInput.text s => [{ role := "user", content := s }]
    | ResponsesInput.turns ts => ts
  match r.instructions with
  | some instr => { role := "developer", content := instr } :: base
  | none => base

/-- Python `str.strip()` on the character list: drop leading and trailing
whitespace. -/
def stripList (l : List Char) : List Char :=
  ((l.dropWhile Char.isWhitespace).reverse.dropWhile Char.isWhitespace).reverse

/-- Python `str.strip()` (no argument): remove leading and trailing
whitespace. -/
def pyStrip (s : String) : String :=
  String.mk (stripList s.data)

/-- Python `str.lower()`: lowercase each character. -/
def pyLower (s : String) : String :=
  String.mk (s.data.map Char.toLower)

/-- The exit tokens of the interactive loop (`['quit', 'exit', 'q']` in
`interactive_chat`). -/
def exitTokens : List String := ["quit", "exit", "q"]

/-- `OpenAITutorial.interactive_chat` on a finite sequence of stdin lines.
Each iteration runs `input("\nYou: ").strip()`, breaks when the lowercased
stripped line is an exit token, calls `chat_completion` when the stripped
line is non-empty, and otherwise re-prompts.  The result collects the
messages forwarded to `chat_completion`, in order, and whether the loop
terminated via an exit token (the `KeyboardInterrupt` path and exhaustion of
stdin are outside the claims and not modelled). -/
def interactive_chat : List String → List String × Bool
  | [] => ([], false)
  | line :: rest =>
      let user_input := pyStrip line
      if pyLower user_input ∈ exitTokens then
        ([], true)
      else if user_input ≠ "" then
        (user_input :: (interactive_chat rest).1, (interactive_chat rest).2)
      else
        interactive_chat rest

/-- One unfolding step of the loop. -/
theorem interactive_chat_cons (line : String) (rest : List String) :
    interactive_chat (line :: rest)
      = if pyLower (pyStrip line) ∈ exitTokens then ([], true)
        else if pyStrip line ≠ "" then
          (pyStrip line :: (interactive_chat rest).1, (interactive_chat rest).2)
        else interactive_chat rest := rfl

/-- A concrete client: the handle produced by `OpenAIClient("test-key")`
(used by witnesses and counterexamples below). -/
def testClient : OpenAIClient :=
  { api_key := "test-key"
    client := { api_key := "test-key" }
    default_model := "gpt-4o-mini"
    default_max_tokens := 150
    default_temperature := 7/10 }

/-- C3: with a non-empty systemPrompt, `chat_completion` assembles exactly a
system-role turn carrying the prompt strictly before exactly one user-role
turn carrying the message; with no systemPrompt the sequence is exactly the
single user-role turn; and this assembled sequence is the `messages` field
of the request sent to the boundary. -/
theorem chat_messages_order (sp message : String) (h : sp ≠ "") :
    chatMessages (some sp) message
      = [{ role := "system", content := sp }, { role := "user", content := message }] ∧
    chatMessages none message = [{ role := "user", content := message }] ∧
    ∀ (c : OpenAIClient) (mdl : Option String) (mt : Option Int) (tmp : Option Rat)
      (spo : Option String),
      (chatRequestOf c mdl mt tmp spo message).messages = chatMessages spo message := by
  refine ⟨?_, rfl, fun c mdl mt tmp spo => rfl⟩
  simp [chatMessages, h]

/-- Witness for C3 at the concrete prompt "Be brief." and message "hi". -/
theorem chat_messages_order_witness :
    chatMessages (some "Be brief.") "hi"
      = [{ role := "system", content := "Be brief." }, { role := "user", content := "hi" }] :=
  (chat_messages_order "Be brief." "hi" (by decide)).1

/-- C10: an empty-string systemPrompt behaves exactly like no systemPrompt
(Python `if system_prompt:` is false on `""`): no system turn is added and
the assembled sequence is the single user-role turn. -/
theorem empty_system_prompt_like_none (message : String) :
    chatMessages (some "") message = chatMessages none message ∧
    chatMessages (some "") message = [{ role := "user", content := message }] := by
  exact ⟨rfl, rfl⟩

/-- C2: with the credential variable unset (`none`) or empty (`some ""`) and
no explicit api_key argument, `OpenAIClient.__init__` raises its
configuration `ValueError` whose message names `OPENAI_API_KEY`, and zero
network calls are issued during construction. -/
theorem missing_api_key_fails_fast (env : Option String)
    (h : env = none ∨ env = some "") :
    (OpenAIClient.init none env).result
      = Except.error "OpenAI API key not found. Please set OPENAI_API_KEY in .env file" ∧
    (OpenAIClient.init none env).networkCalls = 0 ∧
    "OpenAI API key not found. Please set OPENAI_API_KEY in .env file"
      = "OpenAI API key not found. Please set " ++ "OPENAI_API_KEY" ++ " in .env file" := by
  rcases h with h | h <;> subst h <;> exact ⟨rfl, rfl, by decide⟩

/-- Witness for C2 at the unset environment. -/
theorem missing_api_key_fails_fast_witness :
    (OpenAIClient.init none none).result
      = Except.error "OpenAI API key not found. Please set OPENAI_API_KEY in .env file" :=
  (missing_api_key_fails_fast none (Or.inl rfl)).1

/-- C6: when the boundary succeeds, `generate_embeddings` returns the first
embedding vector of the response exactly as received, and reports no
error. -/
theorem embedding_first_vector_unmodified (c : OpenAIClient) (text model : String)
    (transport : EmbRequest → Except String EmbResponse) (d : EmbDatum) (ds : List EmbDatum)
    (h : transport { model := model, input := text } = Except.ok { data := d :: ds }) :
    generate_embeddings c text model transport = (d.embedding, none) := by
  simp [generate_embeddings, generate_embeddingsM, h]

/-- Witness for C6: a stubbed boundary returning the 3-element vector
[0.1, 0.2, 0.3] yields exactly that sequence. -/
theorem embedding_first_vector_unmodified_witness :
    generate_embeddings testClient "some text" "text-embedding-3-small"
      (fun _ => Except.ok { data := [{ embedding := [1/10, 2/10, 3/10] }] })
      = ([1/10, 2/10, 3/10], none) :=
  embedding_first_vector_unmodified testClient "some text" "text-embedding-3-small"
    (fun _ => Except.ok { data := [{ embedding := [1/10, 2/10, 3/10] }] })
    { embedding := [1/10, 2/10, 3/10] } [] rfl

/-- C5: each iteration of the interactive loop terminates cleanly on an exit
token (case-insensitively, with no `chat_completion` call), skips an empty
line silently, and otherwise forwards the line to `chat_completion`; on the
input sequence ["hello", "quit"] exactly one call is made (for "hello") and
the loop terminates. -/
theorem interactive_loop_behavior :
    (∀ (line : String) (rest : List String), pyLower (pyStrip line) ∈ exitTokens →
      interactive_chat (line :: rest) = ([], true)) ∧
    (∀ rest : List String, interactive_chat ("" :: rest) = interactive_chat rest) ∧
    (∀ (line : String) (rest : List String), pyLower (pyStrip line) ∉ exitTokens →
      pyStrip line ≠ "" →
      interactive_chat (line :: rest)
        = (pyStrip line :: (interactive_chat rest).1, (interactive_chat rest).2)) ∧
    interactive_chat ["hello", "quit"] = (["hello"], true) := by
  refine ⟨?_, ?_, ?_, by decide⟩
  · intro line rest h
    simp [interactive_chat_cons, h]
  · intro rest
    rfl
  · intro line rest h1 h2
    simp [interactive_chat_cons, h1, h2]

/-- Witness for C5: the exit branch at "Quit", the skip branch, and the
forwarding branch at "hello", each at concrete inputs. -/
theorem interactive_loop_behavior_witness :
    interactive_chat ["Quit"] = ([], true) ∧
    interactive_chat ["", "q"] = interactive_chat ["q"] ∧
    interactive_chat ["hello", "quit"]
      = (pyStrip "hello" :: (interactive_chat ["quit"]).1, (interactive_chat ["quit"]).2) :=
  ⟨interactive_loop_behavior.1 "Quit" [] (by decide),
   interactive_loop_behavior.2.1 ["q"],
   interactive_loop_behavior.2.2.1 "hello" ["quit"] (by decide) (by decide)⟩

/-- C9: the interactive loop strips each line before interpreting it: a
whitespace-only line is skipped exactly like an empty one, an exit token
surrounded by whitespace still terminates the loop, and the message
forwarded to `chat_completion` is the stripped line, not the raw line. -/
theorem interactive_loop_strips_input :
    (∀ (line : String) (rest : List String), pyStrip line = "" →
      interactive_chat (line :: rest) = interactive_chat rest) ∧
    (∀ (line : String) (rest : List String), pyLower (pyStrip line) ∈ exitTokens →
      interactive_chat (line :: rest) = ([], true)) ∧
    (∀ (line : String) (rest : List String), pyLower (pyStrip line) ∉ exitTokens →
      pyStrip line ≠ "" →
      (interactive_chat (line :: rest)).1 = pyStrip line :: (interactive_chat rest).1) ∧
    interactive_chat ["  quit "] = ([], true) ∧
    interactive_chat ["   "] = ([], false) ∧
    interactive_chat [" hi "] = (["hi"], false) := by
  refine ⟨?_, ?_, ?_, by decide, by decide, by decide⟩
  · intro line rest h
    rw [interactive_chat_cons, h]
    rfl
  · intro line rest h
    simp [interactive_chat_cons, h]
  · intro line rest h1 h2
    simp [interactive_chat_cons, h1, h2]

/-- Witness for C9: the whitespace-only skip, the padded exit token, and the
forwarded stripped message, each at concrete inputs. -/
theorem interactive_loop_strips_input_witness :
    interactive_chat ["   ", "q"] = interactive_chat ["q"] ∧
    interactive_chat ["  quit ", "x"] = ([], true) ∧
    (interactive_chat [" hi "]).1 = pyStrip " hi " :: (interactive_chat []).1 :=
  ⟨interactive_loop_strips_input.1 "   " ["q"] (by decide),
   interactive_loop_strips_input.2.1 "  quit " ["x"] (by decide),
   interactive_loop_strips_input.2.2.1 " hi " [] (by decide) (by decide)⟩

/-- C7: the two `responses.create` call forms of `example3.py` — flat
`instructions` field with a bare-string input, and instructions folded into
the input as a developer-role turn followed by a user-role turn — present
identical effective turn content to the boundary, for every
instructions/input pair; in particular for the concrete pair of the
source. -/
theorem structured_response_forms_equivalent (instructions input : String) :
    effectiveTurns (flatRequest instructions input)
      = effectiveTurns (turnsRequest instructions input) ∧
    effectiveTurns (flatRequest "Talk like a pirate." "Are semicolons optional in JavaScript?")
      = [{ role := "developer", content := "Talk like a pirate." },
         { role := "user", content := "Are semicolons optional in JavaScript?" }] :=
  ⟨rfl, rfl⟩

/-- C8: none of the operations mutates the Client Handle: in the
state-passing embedding, every operation returns the handle it received,
unchanged in every field, on every branch, for all arguments and all
transport outcomes. -/
theorem operations_preserve_handle (c : OpenAIClient)
    (message text model prompt size quality instructions input : String)
    (mdl spo : Option String) (mt : Option Int) (tmp : Option Rat) (n : Int)
    (t1 : ChatRequest → Except String ChatResponse)
    (t2 : EmbRequest → Except String EmbResponse)
    (t3 : ImgRequest → Except String ImgResponse)
    (t4 : ResponsesRequest → Except String ResponsesResponse) :
    (chat_completionM c message mdl mt tmp spo t1).2 = c ∧
    (generate_embeddingsM c text model t2).2 = c ∧
    (generate_imageM c prompt size quality n t3).2 = c ∧
    (structuredResponse_flatM c instructions input t4).2 = c ∧
    (structuredResponse_turnsM c instructions input t4).2 = c := by
  refine ⟨?_, ?_, ?_, rfl, rfl⟩
  · unfold chat_completionM
    rcases t1 (chatRequestOf c mdl mt tmp spo message) with e | r
    · rfl
    · rcases r with ⟨choices⟩
      cases choices <;> rfl
  · unfold generate_embeddingsM
    rcases t2 { model := model, input := text } with e | r
    · rfl
    · rcases r with ⟨data⟩
      cases data <;> rfl
  · unfold generate_imageM
    rcases t3 { model := "dall-e-3", prompt := prompt, size := size,
                quality := quality, n := n } with e | r <;> rfl

/-- Counterexample to C4 as stated: the handle constructed by
`OpenAIClient("test-key")` has default temperature 0.7, and a caller passing
the explicit temperature 0.0 to `chat_completion` does not get 0.0 in the
remote call — Python `temperature or self.default_temperature` treats 0.0 as
falsy, so the request carries the default 0.7 instead of the explicit
value. -/
theorem explicit_zero_temperature_ignored :
    (OpenAIClient.init (some "test-key") none).result = Except.ok testClient ∧
    (chatRequestOf testClient none none (some 0) none "hi").temperature = 7/10 ∧
    (7 : Rat)/10 ≠ 0 := by
  refine ⟨rfl, rfl, by norm_num⟩

/-- C4 amended: an explicit truthy argument (non-empty model string,
non-zero maxTokens, non-zero temperature) is used exactly in the remote
call; the handle's default is used when the caller passes no value, and also
when the caller passes a falsy explicit value (`""`, `0`, `0.0`), because
the source resolves each parameter with Python `or`. -/
theorem param_resolution_truthy (c : OpenAIClient) (mdl : Option String)
    (mt : Option Int) (tmp : Option Rat) (sp : Option String) (message : String) :
    (∀ m, m ≠ "" → (chatRequestOf c (some m) mt tmp sp message).model = m) ∧
    (chatRequestOf c none mt tmp sp message).model = c.default_model ∧
    (chatRequestOf c (some "") mt tmp sp message).model = c.default_model ∧
    (∀ k, k ≠ 0 → (chatRequestOf c mdl (some k) tmp sp message).max_tokens = k) ∧
    (chatRequestOf c mdl none tmp sp message).max_tokens = c.default_max_tokens ∧
    (chatRequestOf c mdl (some 0) tmp sp message).max_tokens = c.default_max_tokens ∧
    (∀ t, t ≠ 0 → (chatRequestOf c mdl mt (some t) sp message).temperature = t) ∧
    (chatRequestOf c mdl mt none sp message).temperature = c.default_temperature ∧
    (chatRequestOf c mdl mt (some 0) sp message).temperature = c.default_temperature := by
  refine ⟨fun m h => ?_, rfl, rfl, fun k h => ?_, rfl, rfl, fun t h => ?_, rfl, rfl⟩
  · simp [chatRequestOf, pyOrStr, h]
  · simp [chatRequestOf, pyOrInt, h]
  · simp [chatRequestOf, pyOrRat, h]

/-- Witness for the amended C4: explicit truthy values for all three
parameters are carried exactly. -/
theorem param_resolution_truthy_witness :
    (chatRequestOf testClient (some "gpt-4o") none none none "hi").model = "gpt-4o" ∧
    (chatRequestOf testClient none (some 99) none none "hi").max_tokens = 99 ∧
    (chatRequestOf testClient none none (some (1/2)) none "hi").temperature = 1/2 :=
  ⟨(param_resolution_truthy testClient none none none none "hi").1 "gpt-4o" (by decide),
   (param_resolution_truthy testClient none none none none "hi").2.2.2.1 99 (by decide),
   (param_resolution_truthy testClient none none none none "hi").2.2.2.2.2.2.1 (1/2)
     (by norm_num)⟩

/-- Counterexample to C1 as stated: the structuredResponse calls of
`example3.py` install no exception handler, so a transport fault is not
converted into a result-with-error value — it propagates out of the
operation (and, at the top level of the script, terminates the process).
Both call forms are shown at the source's concrete arguments with a
transport that raises "boom". -/
theorem structuredResponse_propagates_fault :
    structuredResponse_flat testClient "Talk like a pirate."
      "Are semicolons optional in JavaScript?" (fun _ => Except.error "boom")
      = Except.error "boom" ∧
    structuredResponse_turns testClient "Talk like a pirate."
      "Are semicolons optional in JavaScript?" (fun _ => Except.error "boom")
      = Except.error "boom" :=
  ⟨rfl, rfl⟩

/-- C1 amended: the three wrapper-class operations catch every transport
exception and convert it into a result-with-error value — `chat_completion`
returns the error string, `generate_embeddings` and `generate_image` return
the empty sequence and report the message — so none of them propagates the
fault; the structuredResponse calls of `example3.py`, by contrast, have no
handler and propagate the fault unchanged. -/
theorem transport_errors_converted (c : OpenAIClient)
    (message text model prompt size quality instructions input e : String)
    (mdl sp : Option String) (mt : Option Int) (tmp : Option Rat) (n : Int)
    (t1 : ChatRequest → Except String ChatResponse)
    (t2 : EmbRequest → Except String EmbResponse)
    (t3 : ImgRequest → Except String ImgResponse)
    (h1 : t1 (chatRequestOf c mdl mt tmp sp message) = Except.error e)
    (h2 : t2 { model := model, input := text } = Except.error e)
    (h3 : t3 { model := "dall-e-3", prompt := prompt, size := size,
               quality := quality, n := n } = Except.error e) :
    chat_completion c message mdl mt tmp sp t1 = "Error generating response: " ++ e ∧
    generate_embeddings c text model t2 = ([], some ("Error generating embeddings: " ++ e)) ∧
    generate_image c prompt size quality n t3 = ([], some ("Error generating image: " ++ e)) ∧
    structuredResponse_flat c instructions input (fun _ => Except.error e)
      = Except.error e := by
  refine ⟨?_, ?_, ?_, rfl⟩
  · simp [chat_completion, chat_completionM, h1]
  · simp [generate_embeddings, generate_embeddingsM, h2]
  · simp [generate_image, generate_imageM, h3]

/-- Witness for the amended C1: a transport raising "boom" is converted by
each of the three wrapper-class operations at concrete arguments. -/
theorem transport_errors_converted_witness :
    chat_completion testClient "hi" none none none none (fun _ => Except.error "boom")
      = "Error generating response: boom" ∧
    generate_embeddings testClient "hi" "text-embedding-3-small"
      (fun _ => Except.error "boom")
      = ([], some ("Error generating embeddings: " ++ "boom")) ∧
    generate_image testClient "a cat" "1024x1024" "standard" 1
      (fun _ => Except.error "boom")
      = ([], some ("Error generating image: " ++ "boom")) ∧
    structuredResponse_flat testClient "Be brief." "hi" (fun _ => Except.error "boom")
      = Except.error "boom" :=
  transport_errors_converted testClient "hi" "hi" "text-embedding-3-small" "a cat"
    "1024x1024" "standard" "Be brief." "hi" "boom" none none none none 1
    (fun _ => Except.error "boom") (fun _ => Except.error "boom")
    (fun _ => Except.error "boom") rfl rfl rfl
